import Mathlib

/-!
Shallow embedding of `src/main.py`: a cloud-storage-triggered handler
(`load_data_to_bigquery`) that loads a CSV object into a BigQuery table and
records one audit row per invocation (`log_event_to_audit_table`).

External services (the BigQuery load job and the audit-row insert) are
modelled as oracle parameters describing how the corresponding call behaves
in a given invocation: either it completes with a value (the job's error
list, resp. the insert's per-row error list) or it raises a Python
exception, carried as its `str(e)` message.
-/

deriving instance DecidableEq for Except

namespace GcsToBq

/-- Environment configuration read by `os.getenv` at module load
(`src/main.py` lines 11-13); `os.getenv` yields `None` when the variable is
absent, hence `Option String`. -/
structure Env where
  PROJECT_ID : Option String
  DATASET_ID : Option String
  AUDIT_TABLE_ID : Option String
deriving Repr, DecidableEq

/-- Python string interpolation of a value that may be `None`: an f-string
renders `None` as the literal text "None". -/
def pyStr : Option String → String
  | none => "None"
  | some s => s

/-- The storage-object-created notification payload: `event["bucket"]` and
`event["name"]` (`src/main.py` lines 48-49). -/
structure StorageEvent where
  bucket : String
  name : String
deriving Repr, DecidableEq

/-- The event context object: `context.event_id`, `context.timestamp`,
`context.event_type` and the `context.resource` mapping, of which only the
"name" key is read (`src/main.py` lines 61-64). The mapping is embedded as
an association list. -/
structure EventContext where
  event_id : String
  timestamp : String
  event_type : String
  resource : List (String × String)
deriving Repr, DecidableEq

/-- `dict.get(key, default)` on an association list. -/
def pyDictGet (d : List (String × String)) (key dflt : String) : String :=
  (d.lookup key).getD dflt

/-- The `event_metadata` dictionary built at `src/main.py` lines 60-69. -/
structure EventMetadata where
  event_id : String
  timestamp : String
  event_type : String
  resource_name : String
  bucket_name : String
  file_name : String
  status : String
  error_message : Option String
deriving Repr, DecidableEq

/-- `str.split(sep)` for a one-character separator, on the character list of
a Python string.  `"".split('.') == ['']`, and separators delimit (possibly
empty) segments. -/
def pySplit (sep : Char) : List Char → List (List Char)
  | [] => [[]]
  | c :: rest =>
      let r := pySplit sep rest
      if c = sep then [] :: r else (c :: r.headI) :: r.tail

/-- `str.replace(old, new)` for one-character arguments: a character map. -/
def pyReplaceChar (old new : Char) (s : String) : String :=
  ⟨s.data.map fun c => if c = old then new else c⟩

/-- Python `str()` of the error list returned by the client: the elements
are kept abstract as strings and joined in list form. Used uniformly as the
model of `str(load_job.errors)`. -/
def pyStrList (l : List String) : String :=
  "[" ++ String.intercalate ", " l ++ "]"

/-- `bigquery.WriteDisposition` values accepted by the load-job API. -/
inductive WriteDisposition where
  | WRITE_TRUNCATE
  | WRITE_APPEND
  | WRITE_EMPTY
deriving Repr, DecidableEq

/-- Modelled from the spec: the warehouse-side meaning of a write
disposition, per the glossary ("the policy governing whether new data
overwrites or appends to an existing table's contents"): `WRITE_TRUNCATE`
replaces existing destination-table rows, the other dispositions do not. -/
def WriteDisposition.replacesExistingRows : WriteDisposition → Bool
  | .WRITE_TRUNCATE => true
  | .WRITE_APPEND => false
  | .WRITE_EMPTY => false

/-- The `bigquery.LoadJobConfig` bag constructed at `src/main.py`
lines 73-80. -/
structure LoadJobConfig where
  skip_leading_rows : Nat
  autodetect : Bool
  field_delimiter : String
  allow_quoted_newlines : Bool
  quote_character : String
  write_disposition : WriteDisposition
deriving Repr, DecidableEq

/-- Oracle describing how the `try` block's external calls
(`load_table_from_uri`, `load_job.result()`, `get_table`) behave in one
invocation: either the job reaches completion and `load_job.errors` holds
the given list (Python's `None` and `[]` are both embedded as `[]`, since
the code only tests truthiness), or some call raises an exception whose
`str(e)` is `msg`. -/
inductive LoadOutcome where
  | completed (errors : List String)
  | fault (msg : String)
deriving Repr, DecidableEq

/-- Oracle describing how `bq_client.insert_rows_json` behaves in one
invocation: `.ok errs` is a normal return with the per-row error list,
`.error msg` is a raised exception with `str` form `msg`. -/
abbrev InsertOutcome := Except String (List String)

/-- Result of one call to `log_event_to_audit_table`: whether the call
returned or raised, the rows handed to the insert API, the audit table
reference used, and the error-log lines emitted. -/
structure AuditResult where
  outcome : Except String Unit
  rowsSent : List EventMetadata
  auditTableRef : String
  logs : List String
deriving Repr, DecidableEq

/-- `log_event_to_audit_table` (`src/main.py` lines 16-35): build the audit
table reference from the environment, insert the single metadata row, and
log (only) any per-row errors the insert reports.  A raised exception from
`insert_rows_json` is not caught and escapes the function. -/
def log_event_to_audit_table (env : Env) (event_metadata : EventMetadata)
    (insertResult : InsertOutcome) : AuditResult :=
  let audit_table_ref :=
    pyStr env.PROJECT_ID ++ "." ++ pyStr env.DATASET_ID ++ "." ++
      pyStr env.AUDIT_TABLE_ID
  let rows_to_insert := [event_metadata]
  match insertResult with
  | .error msg =>
      { outcome := .error msg
        rowsSent := rows_to_insert
        auditTableRef := audit_table_ref
        logs := [] }
  | .ok errors =>
      if errors ≠ [] then
        { outcome := .ok ()
          rowsSent := rows_to_insert
          auditTableRef := audit_table_ref
          logs := ["Failed to log event metadata: " ++ pyStrList errors] }
      else
        { outcome := .ok ()
          rowsSent := rows_to_insert
          auditTableRef := audit_table_ref
          logs := [] }

/-- Observable result of one invocation of the handler: what reaches the
caller (`.ok ()` for a normal return, `.error msg` for a propagated
exception), the records passed to the Audit Logger, the rows the Audit
Logger handed to the insert API, what was submitted to the load-job API,
the audit table reference, and the audit function's log lines.
Informational `logging.info` milestones are not modelled. -/
structure HandlerResult where
  outcome : Except String Unit
  auditCalls : List EventMetadata
  sinkRows : List EventMetadata
  submittedUri : String
  submittedTable : String
  submittedConfig : LoadJobConfig
  auditTableRef : String
  auditLogs : List String
deriving Repr, DecidableEq

/-- `load_data_to_bigquery` (`src/main.py` lines 38-116).  Straight-line
embedding of the handler body: derive the table name from the object name
(`file_name.split('.')[0]` then `.replace(' ', '_')`), build the table
reference, URI, initial "Pending" metadata and job config; run the `try`
block against the load oracle, updating the metadata per the job outcome or
the raised fault; then run the `finally` block, which calls
`log_event_to_audit_table`.  Per Python semantics, an exception raised
inside the `finally` block propagates and supersedes any in-flight
exception or pending normal return. -/
def load_data_to_bigquery (env : Env) (event : StorageEvent)
    (context : EventContext) (loadResult : LoadOutcome)
    (insertResult : InsertOutcome) : HandlerResult :=
  let bucket_name := event.bucket
  let file_name := event.name
  let table_name : String := ⟨(pySplit '.' file_name.data).headI⟩
  let table_name := pyReplaceChar ' ' '_' table_name
  let table_ref :=
    pyStr env.PROJECT_ID ++ "." ++ pyStr env.DATASET_ID ++ ".100_" ++ table_name
  let uri := "gs://" ++ bucket_name ++ "/" ++ file_name
  let event_metadata : EventMetadata :=
    { event_id := context.event_id
      timestamp := context.timestamp
      event_type := context.event_type
      resource_name := pyDictGet context.resource "name" ""
      bucket_name := bucket_name
      file_name := file_name
      status := "Pending"
      error_message := none }
  let job_config : LoadJobConfig :=
    { skip_leading_rows := 1
      autodetect := true
      field_delimiter := ","
      allow_quoted_newlines := true
      quote_character := "\""
      write_disposition := .WRITE_TRUNCATE }
  let event_metadata :=
    match loadResult with
    | .completed errors =>
        if errors ≠ [] then
          { event_metadata with
              status := "Failure", error_message := some (pyStrList errors) }
        else
          { event_metadata with status := "Success" }
    | .fault e =>
        { event_metadata with status := "Failure", error_message := some e }
  let tryOutcome : Except String Unit :=
    match loadResult with
    | .completed _ => .ok ()
    | .fault e => .error e
  let audit := log_event_to_audit_table env event_metadata insertResult
  let outcome :=
    match audit.outcome with
    | .error m => .error m
    | .ok _ => tryOutcome
  { outcome := outcome
    auditCalls := [event_metadata]
    sinkRows := audit.rowsSent
    submittedUri := uri
    submittedTable := table_ref
    submittedConfig := job_config
    auditTableRef := audit.auditTableRef
    auditLogs := audit.logs }

/-- Spec-side rendition of claim C4's table-name segment, written from the
spec's words: for names containing at least one dot, the substring before
the first dot with spaces replaced by underscores; for names with no dot,
the full name with spaces replaced by underscores. -/
def spec_table_segment (name : String) : String :=
  if '.' ∈ name.data then
    pyReplaceChar ' ' '_' ⟨name.data.takeWhile (fun c => c ≠ '.')⟩
  else
    pyReplaceChar ' ' '_' name

lemma pySplit_headI (sep : Char) (cs : List Char) :
    (pySplit sep cs).headI = cs.takeWhile (fun c => c ≠ sep) := by
  induction cs with
  | nil => rfl
  | cons c rest ih =>
      by_cases h : c = sep
      · simp [pySplit, h]
      · simp [pySplit, h, ih]

lemma takeWhile_ne_of_not_mem (sep : Char) (l : List Char) (h : sep ∉ l) :
    l.takeWhile (fun c => c ≠ sep) = l := by
  rw [List.takeWhile_eq_self_iff]
  intro x hx
  simp only [decide_eq_true_eq]
  exact fun hxs => h (hxs ▸ hx)

lemma spec_table_segment_eq_takeWhile (name : String) :
    spec_table_segment name
      = pyReplaceChar ' ' '_' ⟨name.data.takeWhile (fun c => c ≠ '.')⟩ := by
  obtain ⟨l⟩ := name
  unfold spec_table_segment
  by_cases h : '.' ∈ l
  · rw [if_pos h]
  · rw [if_neg h]
    show pyReplaceChar ' ' '_' ⟨l⟩
      = pyReplaceChar ' ' '_' ⟨l.takeWhile (fun c => c ≠ '.')⟩
    rw [takeWhile_ne_of_not_mem '.' l h]

/-- Claim C4: for every object name, the destination table identifier
submitted by the handler equals `{project}.{dataset}.100_` followed by the
table-name segment, where for names containing at least one dot the segment
is the substring before the first dot with spaces replaced by underscores,
and for names with no dot it is the full name with spaces replaced by
underscores. -/
theorem destination_table_identifier (p d : String) (aud : Option String)
    (event : StorageEvent) (context : EventContext) (lo : LoadOutcome)
    (ir : InsertOutcome) :
    (load_data_to_bigquery ⟨some p, some d, aud⟩ event context lo ir).submittedTable
      = p ++ "." ++ d ++ ".100_" ++ spec_table_segment event.name := by
  simp [load_data_to_bigquery, pyStr, spec_table_segment_eq_takeWhile,
    pySplit_headI]

/-- Claim C1: for every invocation of the load handler, on every exit path
(normal return, completion with job errors, or a raised fault), the Audit
Logger is invoked exactly once with the current audit record before the
handler returns or the fault escapes: the handler performs exactly one
audit call, and the rows the Audit Logger hands to the audit sink are
exactly the records of that one call. -/
theorem audit_logger_invoked_exactly_once (env : Env) (event : StorageEvent)
    (context : EventContext) (lo : LoadOutcome) (ir : InsertOutcome) :
    (load_data_to_bigquery env event context lo ir).auditCalls.length = 1 ∧
    (load_data_to_bigquery env event context lo ir).sinkRows
      = (load_data_to_bigquery env event context lo ir).auditCalls := by
  cases lo <;> cases ir <;>
    simp [load_data_to_bigquery, log_event_to_audit_table] <;>
    split <;> simp

/-- Claim C5: for every invocation, the load job is configured with one
leading header row skipped, schema auto-inferred, comma field delimiter,
quoted newlines allowed, double-quote as quote character, and the
overwrite (`WRITE_TRUNCATE`) write disposition, which replaces existing
destination-table rows rather than appending. -/
theorem load_job_config_is_overwrite (env : Env) (event : StorageEvent)
    (context : EventContext) (lo : LoadOutcome) (ir : InsertOutcome) :
    (load_data_to_bigquery env event context lo ir).submittedConfig
      = { skip_leading_rows := 1
          autodetect := true
          field_delimiter := ","
          allow_quoted_newlines := true
          quote_character := "\""
          write_disposition := .WRITE_TRUNCATE } ∧
    ((load_data_to_bigquery env event context lo
        ir).submittedConfig.write_disposition).replacesExistingRows = true := by
  constructor <;>
    simp [load_data_to_bigquery, WriteDisposition.replacesExistingRows]

/-- Claim C9 (code bug): with PROJECT_ID absent from the environment, the
handler does not fail fast: it runs to a normal return, submitting the load
job against the malformed destination identifier "None.d.100_t" and
inserting the audit row into the malformed reference "None.d.a" — `getenv`'s
`None` is silently interpolated into both identifiers. -/
theorem missing_project_id_not_fail_fast :
    (load_data_to_bigquery ⟨none, some "d", some "a"⟩ ⟨"b", "t.csv"⟩
        ⟨"e1", "ts", "google.storage.object.finalize", []⟩ (.completed [])
        (.ok [])).outcome = Except.ok () ∧
    (load_data_to_bigquery ⟨none, some "d", some "a"⟩ ⟨"b", "t.csv"⟩
        ⟨"e1", "ts", "google.storage.object.finalize", []⟩ (.completed [])
        (.ok [])).submittedTable = "None.d.100_t" ∧
    (load_data_to_bigquery ⟨none, some "d", some "a"⟩ ⟨"b", "t.csv"⟩
        ⟨"e1", "ts", "google.storage.object.finalize", []⟩ (.completed [])
        (.ok [])).auditTableRef = "None.d.a" := by
  decide

/-- Claim C2 counterexample: when the load job raises the fault "load boom"
and the audit insert itself raises "audit boom", the audit-insert exception
raised inside the `finally` block supersedes the original fault, so the
fault reaching the caller is not the load fault — contradicting the claim
that the handler "propagates the same fault to the caller". -/
theorem load_fault_superseded_by_audit_fault :
    (load_data_to_bigquery ⟨some "p", some "d", some "a"⟩ ⟨"b2", "f2.csv"⟩
        ⟨"e2", "t2", "ft2", []⟩ (.fault "load boom")
        (.error "audit boom")).outcome ≠ Except.error "load boom" := by
  decide

/-- Claim C3 counterexample: when the handler is propagating the fault
"orig fault" and the audit insert raises "sink raise", the audit-logging
fault is propagated to the handler's caller and the original fault is not —
contradicting the claim that an audit-insert failure is never propagated
and that the original fault is what reaches the caller. -/
theorem audit_insert_fault_reaches_caller :
    (load_data_to_bigquery ⟨some "p", some "d", some "a"⟩ ⟨"b3", "f3.csv"⟩
        ⟨"e3", "t3", "ft3", []⟩ (.fault "orig fault")
        (.error "sink raise")).outcome = Except.error "sink raise" ∧
    (load_data_to_bigquery ⟨some "p", some "d", some "a"⟩ ⟨"b3", "f3.csv"⟩
        ⟨"e3", "t3", "ft3", []⟩ (.fault "orig fault")
        (.error "sink raise")).outcome ≠ Except.error "orig fault" := by
  decide

/-- Claim C7 counterexample: when the load job completes with the job error
list ["job err"] but the audit insert raises "sink down", the handler does
not return normally: the audit-insert exception escapes the `finally`
block — contradicting the claim that on the job-errors path the handler
"returns normally without raising". -/
theorem job_error_path_raises_on_audit_fault :
    (load_data_to_bigquery ⟨some "p", some "d", some "a"⟩ ⟨"b4", "f4.csv"⟩
        ⟨"e4", "t4", "ft4", []⟩ (.completed ["job err"])
        (.error "sink down")).outcome ≠ Except.ok () := by
  decide

/-- Claim C2 (amended): for every invocation in which the submission or
wait for the load job raises a fault, the handler sets the audit record's
status to "Failure" and its error message to the string form of the fault,
and invokes the Audit Logger exactly once with that record; provided the
audit insert does not itself raise, the same fault then propagates to the
caller. -/
theorem load_fault_recorded_and_propagated (env : Env) (event : StorageEvent)
    (context : EventContext) (m : String) (aerrs : List String)
    (rec : EventMetadata)
    (hrec : rec ∈ (load_data_to_bigquery env event context (.fault m)
        (.ok aerrs)).auditCalls) :
    (load_data_to_bigquery env event context (.fault m) (.ok aerrs)).outcome
      = Except.error m ∧
    (load_data_to_bigquery env event context (.fault m)
        (.ok aerrs)).auditCalls.length = 1 ∧
    rec.status = "Failure" ∧ rec.error_message = some m := by
  cases aerrs <;>
    simp_all [load_data_to_bigquery, log_event_to_audit_table]

theorem load_fault_recorded_and_propagated_witness :
    (⟨"e21", "t21", "ft21", "", "b21", "f21.csv", "Failure", some "boom"⟩ :
        EventMetadata) ∈
      (load_data_to_bigquery ⟨some "p", some "d", some "a"⟩ ⟨"b21", "f21.csv"⟩
        ⟨"e21", "t21", "ft21", []⟩ (.fault "boom") (.ok [])).auditCalls ∧
    ((load_data_to_bigquery ⟨some "p", some "d", some "a"⟩ ⟨"b21", "f21.csv"⟩
        ⟨"e21", "t21", "ft21", []⟩ (.fault "boom") (.ok [])).outcome
        = Except.error "boom" ∧
      (load_data_to_bigquery ⟨some "p", some "d", some "a"⟩ ⟨"b21", "f21.csv"⟩
        ⟨"e21", "t21", "ft21", []⟩ (.fault "boom")
        (.ok [])).auditCalls.length = 1 ∧
      (⟨"e21", "t21", "ft21", "", "b21", "f21.csv", "Failure", some "boom"⟩ :
          EventMetadata).status = "Failure" ∧
      (⟨"e21", "t21", "ft21", "", "b21", "f21.csv", "Failure", some "boom"⟩ :
          EventMetadata).error_message = some "boom") :=
  have hm : (⟨"e21", "t21", "ft21", "", "b21", "f21.csv", "Failure",
      some "boom"⟩ : EventMetadata) ∈
      (load_data_to_bigquery ⟨some "p", some "d", some "a"⟩ ⟨"b21", "f21.csv"⟩
        ⟨"e21", "t21", "ft21", []⟩ (.fault "boom") (.ok [])).auditCalls := by
    decide
  ⟨hm, load_fault_recorded_and_propagated ⟨some "p", some "d", some "a"⟩
    ⟨"b21", "f21.csv"⟩ ⟨"e21", "t21", "ft21", []⟩ "boom" [] _ hm⟩

/-- Claim C3 (amended): row-level errors reported by the Audit Logger's
insert call are logged only and never propagated, and do not alter the
handler's outcome, which is determined by the load result alone; but a
fault raised inside the insert call is not caught: it propagates to the
handler's caller in place of the handler's original outcome or fault. -/
theorem audit_insert_errors_logged_only (env : Env) (event : StorageEvent)
    (context : EventContext) (lo : LoadOutcome) :
    (∀ aerrs : List String,
      (load_data_to_bigquery env event context lo (.ok aerrs)).outcome
        = (match lo with
           | .completed _ => Except.ok ()
           | .fault m => Except.error m) ∧
      (aerrs ≠ [] →
        (load_data_to_bigquery env event context lo (.ok aerrs)).auditLogs
          = ["Failed to log event metadata: " ++ pyStrList aerrs])) ∧
    (∀ am : String,
      (load_data_to_bigquery env event context lo (.error am)).outcome
        = Except.error am) := by
  constructor
  · intro aerrs
    cases lo <;> cases aerrs <;>
      simp [load_data_to_bigquery, log_event_to_audit_table]
  · intro am
    cases lo <;>
      simp [load_data_to_bigquery, log_event_to_audit_table]

theorem audit_insert_errors_logged_only_witness :
    ((load_data_to_bigquery ⟨some "p", some "d", some "a"⟩ ⟨"b31", "f31.csv"⟩
        ⟨"e31", "t31", "ft31", []⟩ (.completed []) (.ok ["rowerr"])).outcome
        = Except.ok () ∧
      (["rowerr"] ≠ ([] : List String)) ∧
      (load_data_to_bigquery ⟨some "p", some "d", some "a"⟩ ⟨"b31", "f31.csv"⟩
        ⟨"e31", "t31", "ft31", []⟩ (.completed []) (.ok ["rowerr"])).auditLogs
        = ["Failed to log event metadata: " ++ pyStrList ["rowerr"]]) ∧
    (load_data_to_bigquery ⟨some "p", some "d", some "a"⟩ ⟨"b31", "f31.csv"⟩
        ⟨"e31", "t31", "ft31", []⟩ (.completed [])
        (.error "audit down")).outcome = Except.error "audit down" :=
  have h := audit_insert_errors_logged_only ⟨some "p", some "d", some "a"⟩
    ⟨"b31", "f31.csv"⟩ ⟨"e31", "t31", "ft31", []⟩ (.completed [])
  ⟨⟨(h.1 ["rowerr"]).1, by decide, (h.1 ["rowerr"]).2 (by decide)⟩,
    h.2 "audit down"⟩

/-- Claim C6: for every invocation in which the load job completes and
reports zero errors, the audit record passed to the Audit Logger has status
exactly "Success" and its error message is absent. -/
theorem success_record_on_zero_errors (env : Env) (event : StorageEvent)
    (context : EventContext) (ir : InsertOutcome) (rec : EventMetadata)
    (hrec : rec ∈ (load_data_to_bigquery env event context (.completed [])
        ir).auditCalls) :
    rec.status = "Success" ∧ rec.error_message = none := by
  simp [load_data_to_bigquery] at hrec
  simp [hrec]

theorem success_record_on_zero_errors_witness :
    (⟨"e61", "t61", "ft61", "", "b61", "f61.csv", "Success", none⟩ :
        EventMetadata) ∈
      (load_data_to_bigquery ⟨some "p", some "d", some "a"⟩ ⟨"b61", "f61.csv"⟩
        ⟨"e61", "t61", "ft61", []⟩ (.completed []) (.ok [])).auditCalls ∧
    ((⟨"e61", "t61", "ft61", "", "b61", "f61.csv", "Success", none⟩ :
        EventMetadata).status = "Success" ∧
      (⟨"e61", "t61", "ft61", "", "b61", "f61.csv", "Success", none⟩ :
        EventMetadata).error_message = none) :=
  have hm : (⟨"e61", "t61", "ft61", "", "b61", "f61.csv", "Success", none⟩ :
      EventMetadata) ∈
      (load_data_to_bigquery ⟨some "p", some "d", some "a"⟩ ⟨"b61", "f61.csv"⟩
        ⟨"e61", "t61", "ft61", []⟩ (.completed []) (.ok [])).auditCalls := by
    decide
  ⟨hm, success_record_on_zero_errors ⟨some "p", some "d", some "a"⟩
    ⟨"b61", "f61.csv"⟩ ⟨"e61", "t61", "ft61", []⟩ (.ok []) _ hm⟩

/-- Claim C7 (amended): for every invocation in which the load job completes
but reports errors, the audit record's status is "Failure" and its error
message equals the string form of those errors; provided the audit insert
does not itself raise, the handler returns normally without raising. -/
theorem job_errors_recorded_without_raising (env : Env) (event : StorageEvent)
    (context : EventContext) (es aerrs : List String) (hes : es ≠ [])
    (rec : EventMetadata)
    (hrec : rec ∈ (load_data_to_bigquery env event context (.completed es)
        (.ok aerrs)).auditCalls) :
    (load_data_to_bigquery env event context (.completed es)
        (.ok aerrs)).outcome = Except.ok () ∧
    rec.status = "Failure" ∧ rec.error_message = some (pyStrList es) := by
  cases aerrs <;>
    simp_all [load_data_to_bigquery, log_event_to_audit_table]

theorem job_errors_recorded_without_raising_witness :
    (["joberr"] ≠ ([] : List String)) ∧
    (⟨"e71", "t71", "ft71", "", "b71", "f71.csv", "Failure",
        some (pyStrList ["joberr"])⟩ : EventMetadata) ∈
      (load_data_to_bigquery ⟨some "p", some "d", some "a"⟩ ⟨"b71", "f71.csv"⟩
        ⟨"e71", "t71", "ft71", []⟩ (.completed ["joberr"])
        (.ok [])).auditCalls ∧
    ((load_data_to_bigquery ⟨some "p", some "d", some "a"⟩ ⟨"b71", "f71.csv"⟩
        ⟨"e71", "t71", "ft71", []⟩ (.completed ["joberr"]) (.ok [])).outcome
        = Except.ok () ∧
      (⟨"e71", "t71", "ft71", "", "b71", "f71.csv", "Failure",
          some (pyStrList ["joberr"])⟩ : EventMetadata).status = "Failure" ∧
      (⟨"e71", "t71", "ft71", "", "b71", "f71.csv", "Failure",
          some (pyStrList ["joberr"])⟩ : EventMetadata).error_message
        = some (pyStrList ["joberr"])) :=
  have hm : (⟨"e71", "t71", "ft71", "", "b71", "f71.csv", "Failure",
      some (pyStrList ["joberr"])⟩ : EventMetadata) ∈
      (load_data_to_bigquery ⟨some "p", some "d", some "a"⟩ ⟨"b71", "f71.csv"⟩
        ⟨"e71", "t71", "ft71", []⟩ (.completed ["joberr"])
        (.ok [])).auditCalls := by
    decide
  ⟨by decide, hm, job_errors_recorded_without_raising
    ⟨some "p", some "d", some "a"⟩ ⟨"b71", "f71.csv"⟩
    ⟨"e71", "t71", "ft71", []⟩ ["joberr"] [] (by decide) _ hm⟩

/-- Claim C8: for every invocation, every record handed to the audit sink
has a terminal status — "Success" or "Failure" — and in particular a record
with status "Pending" is never durably written. -/
theorem sink_rows_have_terminal_status (env : Env) (event : StorageEvent)
    (context : EventContext) (lo : LoadOutcome) (ir : InsertOutcome)
    (rec : EventMetadata)
    (hrec : rec ∈ (load_data_to_bigquery env event context lo ir).sinkRows) :
    (rec.status = "Success" ∨ rec.status = "Failure") ∧
    rec.status ≠ "Pending" := by
  cases lo with
  | completed errors =>
      rcases eq_or_ne errors [] with h | h <;> cases ir <;>
        simp_all [load_data_to_bigquery, log_event_to_audit_table,
          apply_ite AuditResult.rowsSent]
  | fault m =>
      cases ir <;>
        simp_all [load_data_to_bigquery, log_event_to_audit_table,
          apply_ite AuditResult.rowsSent]

theorem sink_rows_have_terminal_status_witness :
    (⟨"e81", "t81", "ft81", "", "b81", "f81.csv", "Success", none⟩ :
        EventMetadata) ∈
      (load_data_to_bigquery ⟨some "p", some "d", some "a"⟩ ⟨"b81", "f81.csv"⟩
        ⟨"e81", "t81", "ft81", []⟩ (.completed []) (.ok [])).sinkRows ∧
    (((⟨"e81", "t81", "ft81", "", "b81", "f81.csv", "Success", none⟩ :
        EventMetadata).status = "Success" ∨
      (⟨"e81", "t81", "ft81", "", "b81", "f81.csv", "Success", none⟩ :
        EventMetadata).status = "Failure") ∧
      (⟨"e81", "t81", "ft81", "", "b81", "f81.csv", "Success", none⟩ :
        EventMetadata).status ≠ "Pending") :=
  have hm : (⟨"e81", "t81", "ft81", "", "b81", "f81.csv", "Success", none⟩ :
      EventMetadata) ∈
      (load_data_to_bigquery ⟨some "p", some "d", some "a"⟩ ⟨"b81", "f81.csv"⟩
        ⟨"e81", "t81", "ft81", []⟩ (.completed []) (.ok [])).sinkRows := by
    decide
  ⟨hm, sink_rows_have_terminal_status ⟨some "p", some "d", some "a"⟩
    ⟨"b81", "f81.csv"⟩ ⟨"e81", "t81", "ft81", []⟩ (.completed []) (.ok [])
    _ hm⟩

/-- Claim C10: for every invocation, the audit record passed to the Audit
Logger keeps the identity fields taken from the triggering event and
context at initialization — event id, timestamp, event type, resource name
(the context's resource mapping at key "name", defaulting to the empty
string when the key is absent), bucket name and file name — so only the
status and error-message fields are ever mutated after creation. -/
theorem audit_record_preserves_event_fields (env : Env) (event : StorageEvent)
    (context : EventContext) (lo : LoadOutcome) (ir : InsertOutcome)
    (rec : EventMetadata)
    (hrec : rec ∈ (load_data_to_bigquery env event context lo ir).auditCalls) :
    rec.event_id = context.event_id ∧
    rec.timestamp = context.timestamp ∧
    rec.event_type = context.event_type ∧
    rec.resource_name = pyDictGet context.resource "name" "" ∧
    rec.bucket_name = event.bucket ∧
    rec.file_name = event.name ∧
    (context.resource.lookup "name" = none → rec.resource_name = "") := by
  cases lo with
  | completed errors =>
      rcases eq_or_ne errors [] with h | h
      · simp [load_data_to_bigquery, h] at hrec
        subst hrec
        refine ⟨rfl, rfl, rfl, rfl, rfl, rfl, fun hn => ?_⟩
        simp [pyDictGet, hn]
      · simp [load_data_to_bigquery, h] at hrec
        subst hrec
        refine ⟨rfl, rfl, rfl, rfl, rfl, rfl, fun hn => ?_⟩
        simp [pyDictGet, hn]
  | fault m =>
      simp [load_data_to_bigquery] at hrec
      subst hrec
      refine ⟨rfl, rfl, rfl, rfl, rfl, rfl, fun hn => ?_⟩
      simp [pyDictGet, hn]

theorem audit_record_preserves_event_fields_witness :
    (⟨"e101", "t101", "ft101", "", "b101", "f101.csv", "Success", none⟩ :
        EventMetadata) ∈
      (load_data_to_bigquery ⟨some "p", some "d", some "a"⟩
        ⟨"b101", "f101.csv"⟩ ⟨"e101", "t101", "ft101", []⟩ (.completed [])
        (.ok [])).auditCalls ∧
    (([] : List (String × String)).lookup "name" = none) ∧
    (⟨"e101", "t101", "ft101", "", "b101", "f101.csv", "Success", none⟩ :
        EventMetadata).resource_name = "" :=
  have hm : (⟨"e101", "t101", "ft101", "", "b101", "f101.csv", "Success",
      none⟩ : EventMetadata) ∈
      (load_data_to_bigquery ⟨some "p", some "d", some "a"⟩
        ⟨"b101", "f101.csv"⟩ ⟨"e101", "t101", "ft101", []⟩ (.completed [])
        (.ok [])).auditCalls := by
    decide
  have h := audit_record_preserves_event_fields ⟨some "p", some "d", some "a"⟩
    ⟨"b101", "f101.csv"⟩ ⟨"e101", "t101", "ft101", []⟩ (.completed [])
    (.ok []) _ hm
  ⟨hm, by decide, h.2.2.2.2.2.2 (by decide)⟩

end GcsToBq
